import Mathlib

/-!
Verification development for the `DocumentExtractor` pipeline
(`src/document_extractor.py`).

The development shallowly embeds the three functions the specification is
about:

* `_fallback_unstructured_extraction` — the flat-sequence normalizer that
  groups a flat list of `unstructured` elements into per-page buckets while
  tracking a page-boundary cursor initialised to the sentinel `-1`;
* `_format_output` — the tree normalizer over the deepdoctection
  page-oriented result;
* `extract_from_document` — the entry point with the existence check and
  the primary-to-fallback engine switch.

External engines are modelled as explicit function parameters
(`analyze`, `partition_pdf`, `path_exists`); Python exceptions become
`Except` values; dictionaries become structures whose optional keys are
`Option` fields.
-/

namespace DocumentExtraction

/-- A bounding box as reported by an engine.  The normalizers carry it
through verbatim, so its concrete shape is irrelevant to every property
proved below. -/
structure BoundingBox where
  x1 : Int
  y1 : Int
  x2 : Int
  y2 : Int
deriving DecidableEq, Repr

/-- The metadata of an `unstructured` element: `element.metadata.page_number`
(possibly `None`) and `element.metadata.bbox`. -/
structure ElementMetadata where
  page_number : Option Int
  bbox : Option BoundingBox
deriving DecidableEq, Repr

/-- The concrete element categories of the `unstructured` library that are
relevant to the source's `isinstance` chain.  `checkBox` stands for an
element class that does not derive from `Text` (in `unstructured`,
`CheckBox` subclasses `Element` directly, while `Title`, `Table`,
`NarrativeText`, `ListItem`, `Header` and `Footer` all subclass `Text`). -/
inductive UCategory
  | title
  | table
  | narrativeText
  | listItem
  | header
  | footer
  | checkBox
deriving DecidableEq, Repr

/-- `isinstance(element, Title)` on the element's concrete class. -/
def is_title : UCategory → Bool
  | .title => true
  | _ => false

/-- `isinstance(element, Table)` on the element's concrete class. -/
def is_table : UCategory → Bool
  | .table => true
  | _ => false

/-- `isinstance(element, Text)` on the element's concrete class: `Text` is
the base class of every textual element of `unstructured`, so it holds for
all categories except the non-textual `checkBox`. -/
def is_text : UCategory → Bool
  | .checkBox => false
  | _ => true

/-- A flat element as emitted by `partition_pdf`: concrete class, text
payload, metadata. -/
structure UElement where
  category : UCategory
  text : String
  metadata : ElementMetadata
deriving DecidableEq, Repr

/-- One item dictionary as built by either normalizer.  `text` and
`table_data` are `Option` because the source dictionaries do not always
contain those keys (`_format_output` table entries have no `"text"` key,
and only table entries have `"table_data"`). -/
structure Item where
  type : String
  text : Option String
  table_data : Option String
  bounding_box : Option BoundingBox
deriving DecidableEq, Repr

/-- One entry of the output `"elements"` list: a page-number key and the
item dictionaries accumulated for that page. -/
structure PageEntry where
  page_number : Int
  data : List Item
deriving DecidableEq, Repr

/-- The dictionary returned by `_fallback_unstructured_extraction`
(`file_path` and `elements`; it has no `page_count` key). -/
structure FallbackData where
  file_path : String
  elements : List PageEntry
deriving DecidableEq, Repr

/-- The loop body of `_fallback_unstructured_extraction` that builds
`element_dict`: start from `{"type": "unknown", "text": element.text,
"bounding_box": element.metadata.bbox}`, then the `isinstance` chain
overrides `type` (and, for tables, also sets `table_data = element.text`). -/
def classify_element (element : UElement) : Item :=
  let element_dict : Item :=
    { type := "unknown"
      text := some element.text
      table_data := none
      bounding_box := element.metadata.bbox }
  if is_title element.category then
    { element_dict with type := "title" }
  else if is_table element.category then
    { element_dict with type := "table", table_data := some element.text }
  else if is_text element.category then
    { element_dict with type := "text" }
  else
    element_dict

/-- The mutable loop state of `_fallback_unstructured_extraction`:
`current_page_number` (initialised to `-1`), the open `page_data` bucket,
and the pages already flushed into `fallback_data["elements"]`. -/
structure FbState where
  current_page_number : Int
  page_data : List Item
  pages : List PageEntry
deriving DecidableEq, Repr

/-- One iteration of the `for element in elements` loop: if the element's
page number is present and differs from the cursor, flush the open bucket
(only when non-empty) and reset cursor and bucket; then append the
classified element to the open bucket. -/
def fb_step (s : FbState) (element : UElement) : FbState :=
  let s1 : FbState :=
    match element.metadata.page_number with
    | none => s
    | some n =>
      if n ≠ s.current_page_number then
        { current_page_number := n
          page_data := []
          pages := s.pages ++
            (if s.page_data = [] then [] else [⟨s.current_page_number, s.page_data⟩]) }
      else s
  { s1 with page_data := s1.page_data ++ [classify_element element] }

/-- `_fallback_unstructured_extraction`, with the `partition_pdf` result
passed in as `elements`: run the loop from the sentinel state and perform
the final flush of the last open bucket (only when non-empty). -/
def fallback_unstructured_extraction (file_path : String)
    (elements : List UElement) : FallbackData :=
  let s := elements.foldl fb_step ⟨-1, [], []⟩
  { file_path := file_path
    elements := s.pages ++
      (if s.page_data = [] then [] else [⟨s.current_page_number, s.page_data⟩]) }

/-- The same grouping loop written as a structural recursion on the element
list, carrying the cursor and the open bucket; proved equal to the `foldl`
form below and used as the induction handle for every property of
`fallback_unstructured_extraction`. -/
def groupPages (cur : Int) (pd : List Item) : List UElement → List PageEntry
  | [] => if pd = [] then [] else [⟨cur, pd⟩]
  | element :: rest =>
    match element.metadata.page_number with
    | none => groupPages cur (pd ++ [classify_element element]) rest
    | some n =>
      if n ≠ cur then
        (if pd = [] then [] else [⟨cur, pd⟩]) ++
          groupPages n [classify_element element] rest
      else groupPages cur (pd ++ [classify_element element]) rest

/-- A text block of a deepdoctection page (`text_block.get_text()` and
`text_block.bounding_box`). -/
structure DDTextBlock where
  text : String
  bounding_box : Option BoundingBox
deriving DecidableEq, Repr

/-- A table of a deepdoctection page (`table.get_table_csv()` and
`table.bounding_box`). -/
structure DDTable where
  csv : String
  bounding_box : Option BoundingBox
deriving DecidableEq, Repr

/-- A generic layout element of a deepdoctection page
(`element.category_name`, `element.get_text()`, `element.bounding_box`). -/
structure DDLayout where
  category_name : String
  text : String
  bounding_box : Option BoundingBox
deriving DecidableEq, Repr

/-- A deepdoctection page: its own `page_number` and the three separately
exposed collections `page.text`, `page.tables`, `page.layouts`. -/
structure DDPage where
  page_number : Int
  text : List DDTextBlock
  tables : List DDTable
  layouts : List DDLayout
deriving DecidableEq, Repr

/-- A deepdoctection analysis result: `get_info().path` and the page list. -/
structure DDDoc where
  path : String
  pages : List DDPage
deriving DecidableEq, Repr

/-- The dictionary returned by `_format_output` (`file_path`, `page_count`,
`elements`). -/
structure FormatOutput where
  file_path : String
  page_count : Nat
  elements : List PageEntry
deriving DecidableEq, Repr

/-- The per-page body of the `_format_output` loop: text blocks first
(`type = "text"`), then tables (`type = "table"`, `table_data` = the CSV
serialisation, no `"text"` key), then layout elements (`type` = the
element's own `category_name`, verbatim). -/
def format_page_elements (page : DDPage) : List Item :=
  page.text.map (fun tb =>
    { type := "text", text := some tb.text, table_data := none
      bounding_box := tb.bounding_box })
  ++ page.tables.map (fun t =>
    { type := "table", text := none, table_data := some t.csv
      bounding_box := t.bounding_box })
  ++ page.layouts.map (fun l =>
    { type := l.category_name, text := some l.text, table_data := none
      bounding_box := l.bounding_box })

/-- `_format_output`: `page_count` is taken from `len(analyzed_doc.pages)`
and one entry per page is appended unconditionally, its `page_number` read
directly from the page object. -/
def format_output (analyzed_doc : DDDoc) : FormatOutput :=
  { file_path := analyzed_doc.path
    page_count := analyzed_doc.pages.length
    elements := analyzed_doc.pages.map (fun page =>
      { page_number := page.page_number, data := format_page_elements page }) }

/-- The engine invocations `extract_from_document` can perform, recorded in
order so that claims about which engines run become statements about the
trace. -/
inductive EngineCall
  | primaryAnalyze
  | fallbackPartition
deriving DecidableEq, Repr

/-- An exception raised by the primary deepdoctection engine. -/
structure PrimaryError where
  msg : String
deriving DecidableEq, Repr

/-- An exception raised by the fallback `partition_pdf` engine. -/
structure FallbackError where
  msg : String
deriving DecidableEq, Repr

/-- The errors `extract_from_document` can surface to its caller.  The
`primaryError` constructor exists so that "the primary exception is never
raised to the caller" is a non-vacuous statement. -/
inductive ExtractError
  | fileNotFound (path : String)
  | primaryError (e : PrimaryError)
  | fallbackError (e : FallbackError)
deriving DecidableEq, Repr

/-- The two output shapes `extract_from_document` can return: the
`_format_output` dictionary or the fallback dictionary. -/
inductive ExtractResult
  | tree (d : FormatOutput)
  | flat (d : FallbackData)
deriving DecidableEq, Repr

/-- `extract_from_document`, with the filesystem check and the two engines
as explicit parameters.  Mirrors the source: raise `FileNotFoundError`
before any engine runs; try `analyze`; on any exception return the fallback
extraction of the same path (whose own failure propagates); on success
return `_format_output`.  The second component is the trace of engine
invocations. -/
def extract_from_document (path_exists : String → Bool)
    (analyze : String → Except PrimaryError DDDoc)
    (partition_pdf : String → Except FallbackError (List UElement))
    (file_path : String) :
    Except ExtractError ExtractResult × List EngineCall :=
  if path_exists file_path = false then
    (.error (.fileNotFound file_path), [])
  else
    match analyze file_path with
    | .ok analyzed_doc => (.ok (.tree (format_output analyzed_doc)), [.primaryAnalyze])
    | .error _ =>
      match partition_pdf file_path with
      | .ok elements =>
        (.ok (.flat (fallback_unstructured_extraction file_path elements)),
          [.primaryAnalyze, .fallbackPartition])
      | .error e =>
        (.error (.fallbackError e), [.primaryAnalyze, .fallbackPartition])

/-- Running the fallback extraction alone on a path: partition it and
normalize, propagating a partition failure.  Used to state that the entry
point returns the fallback's result unmodified. -/
def run_fallback_alone
    (partition_pdf : String → Except FallbackError (List UElement))
    (file_path : String) : Except FallbackError FallbackData :=
  match partition_pdf file_path with
  | .ok elements => .ok (fallback_unstructured_extraction file_path elements)
  | .error e => .error e

/-- The close-out step shared by the loop (on a page transition) and the
code after the loop: flush the open bucket after the already-emitted pages,
but only when it is non-empty. -/
def finish (s : FbState) : List PageEntry :=
  s.pages ++ (if s.page_data = [] then [] else [⟨s.current_page_number, s.page_data⟩])

theorem fallback_elements_def (file_path : String) (elements : List UElement) :
    (fallback_unstructured_extraction file_path elements).elements
      = finish (elements.foldl fb_step ⟨-1, [], []⟩) := rfl

theorem finish_foldl (elements : List UElement) :
    ∀ (cur : Int) (pd : List Item) (acc : List PageEntry),
      finish (elements.foldl fb_step ⟨cur, pd, acc⟩) = acc ++ groupPages cur pd elements := by
  induction elements with
  | nil =>
    intro cur pd acc
    simp [finish, groupPages]
  | cons e rest ih =>
    intro cur pd acc
    rw [List.foldl_cons]
    cases hpn : e.metadata.page_number with
    | none =>
      have hstep : fb_step ⟨cur, pd, acc⟩ e = ⟨cur, pd ++ [classify_element e], acc⟩ := by
        simp [fb_step, hpn]
      rw [hstep, ih, groupPages, hpn]
    | some n =>
      by_cases hne : n = cur
      · have hstep : fb_step ⟨cur, pd, acc⟩ e = ⟨cur, pd ++ [classify_element e], acc⟩ := by
          simp [fb_step, hpn, hne]
        rw [hstep, ih]
        simp [groupPages, hpn, hne]
      · have hstep : fb_step ⟨cur, pd, acc⟩ e =
            ⟨n, [classify_element e],
              acc ++ (if pd = [] then [] else [⟨cur, pd⟩])⟩ := by
          simp [fb_step, hpn, hne]
        rw [hstep, ih]
        simp only [groupPages, hpn]
        rw [if_pos hne, List.append_assoc]

theorem fallback_elements_eq (file_path : String) (elements : List UElement) :
    (fallback_unstructured_extraction file_path elements).elements
      = groupPages (-1) [] elements := by
  rw [fallback_elements_def, finish_foldl, List.nil_append]

theorem groupPages_flatten (elements : List UElement) :
    ∀ (cur : Int) (pd : List Item),
      ((groupPages cur pd elements).map PageEntry.data).flatten
        = pd ++ elements.map classify_element := by
  induction elements with
  | nil =>
    intro cur pd
    by_cases hpd : pd = [] <;> simp [groupPages, hpd]
  | cons e rest ih =>
    intro cur pd
    cases hpn : e.metadata.page_number with
    | none =>
      simp only [groupPages, hpn, ih, List.map_cons]
      simp
    | some n =>
      by_cases hne : n = cur
      · subst hne
        simp only [groupPages, hpn]
        rw [if_neg (by simp)]
        rw [ih]
        simp
      · simp only [groupPages, hpn]
        rw [if_pos hne]
        by_cases hpd : pd = [] <;>
          simp [hpd, ih, List.map_cons]

theorem groupPages_no_empty (elements : List UElement) :
    ∀ (cur : Int) (pd : List Item) (p : PageEntry),
      p ∈ groupPages cur pd elements → p.data ≠ [] := by
  induction elements with
  | nil =>
    intro cur pd p hp
    by_cases hpd : pd = []
    · simp [groupPages, hpd] at hp
    · simp [groupPages, hpd] at hp
      rw [hp]
      exact hpd
  | cons e rest ih =>
    intro cur pd p hp
    cases hpn : e.metadata.page_number with
    | none =>
      simp only [groupPages, hpn] at hp
      exact ih _ _ _ hp
    | some n =>
      by_cases hne : n = cur
      · subst hne
        simp only [groupPages, hpn] at hp
        rw [if_neg (by simp)] at hp
        exact ih _ _ _ hp
      · simp only [groupPages, hpn] at hp
        rw [if_pos hne] at hp
        rcases List.mem_append.mp hp with hin | hin
        · by_cases hpd : pd = []
          · simp [hpd] at hin
          · simp [hpd] at hin
            rw [hin]
            exact hpd
        · exact ih _ _ _ hin

theorem fallback_no_empty_pages (file_path : String) (elements : List UElement)
    (p : PageEntry)
    (hp : p ∈ (fallback_unstructured_extraction file_path elements).elements) :
    p.data ≠ [] := by
  rw [fallback_elements_eq] at hp
  exact groupPages_no_empty elements (-1) [] p hp

theorem fallback_flatten (file_path : String) (elements : List UElement) :
    (((fallback_unstructured_extraction file_path elements).elements).map
        PageEntry.data).flatten
      = elements.map classify_element := by
  rw [fallback_elements_eq, groupPages_flatten, List.nil_append]

theorem groupPages_pageNumbers (elements : List UElement) :
    ∀ (nums : List Int) (cur : Int) (pd : List Item), pd ≠ [] →
      elements.map (fun e => e.metadata.page_number) = nums.map some →
      (groupPages cur pd elements).map PageEntry.page_number
        = List.destutter' (fun a b => a ≠ b) cur nums := by
  induction elements with
  | nil =>
    intro nums cur pd hpd hmap
    have hnil : nums = [] := by
      cases nums with
      | nil => rfl
      | cons x xs => simp at hmap
    subst hnil
    simp [groupPages, hpd, List.destutter']
  | cons e rest ih =>
    intro nums cur pd hpd hmap
    cases nums with
    | nil => simp at hmap
    | cons n nrest =>
      simp only [List.map_cons, List.cons.injEq] at hmap
      obtain ⟨hpn, hrest⟩ := hmap
      by_cases hne : n = cur
      · subst hne
        simp only [groupPages, hpn]
        rw [if_neg (by simp)]
        rw [ih nrest n (pd ++ [classify_element e]) (by simp) hrest]
        rw [List.destutter'_cons_neg nrest (show ¬(n ≠ n) by simp)]
      · simp only [groupPages, hpn]
        rw [if_pos hne, if_neg hpd, List.map_append,
          ih nrest n [classify_element e] (by simp) hrest,
          List.destutter'_cons_pos nrest (Ne.symm hne)]
        simp

theorem fallback_pageNumbers (file_path : String) (elements : List UElement)
    (nums : List Int)
    (hmap : elements.map (fun e => e.metadata.page_number) = nums.map some) :
    ((fallback_unstructured_extraction file_path elements).elements).map
        PageEntry.page_number
      = nums.destutter (fun a b => a ≠ b) := by
  rw [fallback_elements_eq]
  cases elements with
  | nil =>
    have hnil : nums = [] := by
      cases nums with
      | nil => rfl
      | cons x xs => simp at hmap
    subst hnil
    simp [groupPages]
  | cons e rest =>
    cases nums with
    | nil => simp at hmap
    | cons n nrest =>
      simp only [List.map_cons, List.cons.injEq] at hmap
      obtain ⟨hpn, hrest⟩ := hmap
      rw [List.destutter_cons']
      have hgp := groupPages_pageNumbers rest nrest n [classify_element e] (by simp) hrest
      by_cases hne : n = -1
      · subst hne
        simp only [groupPages, hpn]
        rw [if_neg (by simp)]
        simpa using hgp
      · simp only [groupPages, hpn]
        rw [if_pos hne]
        simpa using hgp

theorem mem_destutter_ne (l : List Int) :
    ∀ a : Int, a ∈ List.destutter' (fun x y => x ≠ y) a l
      ∧ ∀ b ∈ l, b ∈ List.destutter' (fun x y => x ≠ y) a l := by
  induction l with
  | nil =>
    intro a
    refine ⟨by simp [List.destutter'], ?_⟩
    intro b hb
    simp at hb
  | cons c t ih =>
    intro a
    by_cases hac : a ≠ c
    · rw [List.destutter'_cons_pos t hac]
      refine ⟨List.mem_cons_self _ _, ?_⟩
      intro b hb
      rcases List.mem_cons.mp hb with rfl | hbt
      · exact List.mem_cons_of_mem _ (ih b).1
      · exact List.mem_cons_of_mem _ ((ih c).2 b hbt)
    · have hac2 : a = c := by
        by_contra hcon
        exact hac hcon
      rw [List.destutter'_cons_neg t hac]
      refine ⟨(ih a).1, ?_⟩
      intro b hb
      rcases List.mem_cons.mp hb with rfl | hbt
      · rw [← hac2]
        exact (ih a).1
      · exact (ih a).2 b hbt

theorem mem_destutter_ne_iff (nums : List Int) (n : Int) :
    n ∈ nums.destutter (fun a b => a ≠ b) ↔ n ∈ nums := by
  constructor
  · intro h
    exact (List.destutter_sublist _ nums).subset h
  · intro h
    cases nums with
    | nil => simp at h
    | cons c t =>
      rw [List.destutter_cons']
      rcases List.mem_cons.mp h with rfl | ht
      · exact (mem_destutter_ne t n).1
      · exact (mem_destutter_ne t c).2 n ht

theorem pairwise_lt_of_pairwise_le_chain_ne :
    ∀ l : List Int, l.Pairwise (fun a b => a ≤ b) →
      l.Chain' (fun a b => a ≠ b) → l.Pairwise (fun a b => a < b) := by
  intro l
  induction l with
  | nil =>
    intro _ _
    exact List.Pairwise.nil
  | cons a l ih =>
    intro hle hne
    rw [List.pairwise_cons] at hle ⊢
    obtain ⟨hale, hl⟩ := hle
    refine ⟨?_, ih hl hne.tail⟩
    intro b hb
    cases l with
    | nil => simp at hb
    | cons c t =>
      have hac : a ≠ c := (List.chain'_cons.mp hne).1
      have haltc : a < c := lt_of_le_of_ne (hale c (by simp)) hac
      rcases List.mem_cons.mp hb with rfl | hbt
      · exact haltc
      · have hcb : c ≤ b := (List.pairwise_cons.mp hl).1 b hbt
        exact lt_of_lt_of_le haltc hcb

theorem destutter_nodup_of_mono (nums : List Int)
    (hmono : nums.Chain' (fun a b => a ≤ b)) :
    (nums.destutter (fun a b => a ≠ b)).Nodup := by
  have hpw : nums.Pairwise (fun a b => a ≤ b) := List.chain'_iff_pairwise.mp hmono
  have hsub : List.Sublist (nums.destutter (fun a b => a ≠ b)) nums :=
    List.destutter_sublist _ nums
  have hple : (nums.destutter (fun a b => a ≠ b)).Pairwise (fun a b => a ≤ b) :=
    hpw.sublist hsub
  have hchne : (nums.destutter (fun a b => a ≠ b)).Chain' (fun a b => a ≠ b) :=
    List.destutter_is_chain' _ nums
  have hlt := pairwise_lt_of_pairwise_le_chain_ne _ hple hchne
  exact hlt.imp (fun h => ne_of_lt h)

theorem groupPages_all_none (elements : List UElement) :
    ∀ (cur : Int) (pd : List Item),
      (∀ x ∈ elements, x.metadata.page_number = none) →
      groupPages cur pd elements
        = if pd ++ elements.map classify_element = [] then []
          else [⟨cur, pd ++ elements.map classify_element⟩] := by
  induction elements with
  | nil =>
    intro cur pd _
    simp [groupPages]
  | cons e rest ih =>
    intro cur pd hall
    have hpn : e.metadata.page_number = none := hall e (by simp)
    simp only [groupPages, hpn]
    rw [ih cur (pd ++ [classify_element e]) (fun x hx => hall x (by simp [hx]))]
    simp

/-- C1: for every flat element sequence whose page-number metadata is present
on each element and monotonically non-decreasing, the flat-sequence
normalizer produces exactly one page entry per distinct page number (the
output page-number list is duplicate-free and contains exactly the numbers
occurring in the input), the items of the pages concatenate to the
classified elements in original emission order, no page entry holds zero
items, and the final page's items are included in the output. -/
theorem C1_fallback_monotone_normalization (file_path : String)
    (elements : List UElement) (nums : List Int)
    (hpresent : elements.map (fun e => e.metadata.page_number) = nums.map some)
    (hmono : nums.Chain' (fun a b => a ≤ b)) :
    (((fallback_unstructured_extraction file_path elements).elements.map
        PageEntry.page_number).Nodup)
    ∧ (∀ n : Int,
        n ∈ (fallback_unstructured_extraction file_path elements).elements.map
            PageEntry.page_number ↔ n ∈ nums)
    ∧ (((fallback_unstructured_extraction file_path elements).elements.map
          PageEntry.data).flatten = elements.map classify_element)
    ∧ (∀ p ∈ (fallback_unstructured_extraction file_path elements).elements,
        p.data ≠ []) := by
  refine ⟨?_, ?_, fallback_flatten file_path elements,
    fun p hp => fallback_no_empty_pages file_path elements p hp⟩
  · rw [fallback_pageNumbers file_path elements nums hpresent]
    exact destutter_nodup_of_mono nums hmono
  · intro n
    rw [fallback_pageNumbers file_path elements nums hpresent]
    exact mem_destutter_ne_iff nums n

theorem C1_witness :
    (([⟨UCategory.title, "a", ⟨some 1, none⟩⟩,
       ⟨UCategory.narrativeText, "b", ⟨some 2, none⟩⟩] : List UElement).map
        (fun e => e.metadata.page_number) = ([1, 2] : List Int).map some)
    ∧ (([1, 2] : List Int).Chain' (fun a b => a ≤ b))
    ∧ ((((fallback_unstructured_extraction "w1.pdf"
          [⟨UCategory.title, "a", ⟨some 1, none⟩⟩,
           ⟨UCategory.narrativeText, "b", ⟨some 2, none⟩⟩]).elements.map
            PageEntry.page_number).Nodup)
       ∧ (∀ n : Int,
            n ∈ (fallback_unstructured_extraction "w1.pdf"
                [⟨UCategory.title, "a", ⟨some 1, none⟩⟩,
                 ⟨UCategory.narrativeText, "b", ⟨some 2, none⟩⟩]).elements.map
                PageEntry.page_number ↔ n ∈ ([1, 2] : List Int))
       ∧ (((fallback_unstructured_extraction "w1.pdf"
              [⟨UCategory.title, "a", ⟨some 1, none⟩⟩,
               ⟨UCategory.narrativeText, "b", ⟨some 2, none⟩⟩]).elements.map
              PageEntry.data).flatten
            = ([⟨UCategory.title, "a", ⟨some 1, none⟩⟩,
                ⟨UCategory.narrativeText, "b", ⟨some 2, none⟩⟩] : List UElement).map
                classify_element)
       ∧ (∀ p ∈ (fallback_unstructured_extraction "w1.pdf"
              [⟨UCategory.title, "a", ⟨some 1, none⟩⟩,
               ⟨UCategory.narrativeText, "b", ⟨some 2, none⟩⟩]).elements,
            p.data ≠ [])) :=
  ⟨rfl, by simp [List.chain'_pair],
    C1_fallback_monotone_normalization "w1.pdf"
      [⟨UCategory.title, "a", ⟨some 1, none⟩⟩,
       ⟨UCategory.narrativeText, "b", ⟨some 2, none⟩⟩] [1, 2] rfl
      (by simp [List.chain'_pair])⟩

/-- C2: whenever the existence check passes and the primary engine call
fails, the entry point returns exactly the result of running the fallback
extraction alone on the same path (successful fallback output unmodified, a
fallback failure propagated as the terminal error), and the caller never
receives an error of the primary engine's exception type. -/
theorem C2_primary_failure_uses_fallback
    (path_exists : String → Bool)
    (analyze : String → Except PrimaryError DDDoc)
    (partition_pdf : String → Except FallbackError (List UElement))
    (file_path : String) (pe pe2 : PrimaryError) (fe : FallbackError)
    (hexists : path_exists file_path = true)
    (hfail : analyze file_path = .error pe) :
    ((extract_from_document path_exists analyze partition_pdf file_path).1
      = match run_fallback_alone partition_pdf file_path with
        | .ok d => .ok (.flat d)
        | .error e2 => .error (.fallbackError e2))
    ∧ ((extract_from_document path_exists analyze partition_pdf file_path).1
        ≠ .error (.primaryError pe2))
    ∧ (partition_pdf file_path = .error fe →
        (extract_from_document path_exists analyze partition_pdf file_path).1
          = .error (.fallbackError fe)) := by
  cases hpart : partition_pdf file_path with
  | ok elements =>
    simp [extract_from_document, run_fallback_alone, hexists, hfail, hpart]
  | error e2 =>
    simp [extract_from_document, run_fallback_alone, hexists, hfail, hpart]

theorem C2_witness :
    ((fun _ : String => true) "w2.pdf" = true)
    ∧ ((fun _ : String => (Except.error ⟨"boom"⟩ : Except PrimaryError DDDoc)) "w2.pdf"
        = Except.error ⟨"boom"⟩)
    ∧ ((extract_from_document (fun _ => true)
          (fun _ => (Except.error ⟨"boom"⟩ : Except PrimaryError DDDoc))
          (fun _ => (Except.error ⟨"fbfail"⟩ : Except FallbackError (List UElement)))
          "w2.pdf").1
        = match run_fallback_alone
            (fun _ => (Except.error ⟨"fbfail"⟩ : Except FallbackError (List UElement)))
            "w2.pdf" with
          | .ok d => .ok (.flat d)
          | .error e2 => .error (.fallbackError e2))
    ∧ ((extract_from_document (fun _ => true)
          (fun _ => (Except.error ⟨"boom"⟩ : Except PrimaryError DDDoc))
          (fun _ => (Except.error ⟨"fbfail"⟩ : Except FallbackError (List UElement)))
          "w2.pdf").1
        ≠ .error (.primaryError ⟨"other"⟩))
    ∧ ((extract_from_document (fun _ => true)
          (fun _ => (Except.error ⟨"boom"⟩ : Except PrimaryError DDDoc))
          (fun _ => (Except.error ⟨"fbfail"⟩ : Except FallbackError (List UElement)))
          "w2.pdf").1
        = .error (.fallbackError ⟨"fbfail"⟩)) :=
  ⟨rfl, rfl,
    (C2_primary_failure_uses_fallback (fun _ => true)
      (fun _ => Except.error ⟨"boom"⟩) (fun _ => Except.error ⟨"fbfail"⟩)
      "w2.pdf" ⟨"boom"⟩ ⟨"other"⟩ ⟨"fbfail"⟩ rfl rfl).1,
    (C2_primary_failure_uses_fallback (fun _ => true)
      (fun _ => Except.error ⟨"boom"⟩) (fun _ => Except.error ⟨"fbfail"⟩)
      "w2.pdf" ⟨"boom"⟩ ⟨"other"⟩ ⟨"fbfail"⟩ rfl rfl).2.1,
    (C2_primary_failure_uses_fallback (fun _ => true)
      (fun _ => Except.error ⟨"boom"⟩) (fun _ => Except.error ⟨"fbfail"⟩)
      "w2.pdf" ⟨"boom"⟩ ⟨"other"⟩ ⟨"fbfail"⟩ rfl rfl).2.2 rfl⟩

/-- C3: on a path that does not exist, the entry point returns the
not-found error and its engine-invocation trace is empty: neither the
primary analyze call nor the fallback extraction is performed. -/
theorem C3_missing_file_short_circuits
    (path_exists : String → Bool)
    (analyze : String → Except PrimaryError DDDoc)
    (partition_pdf : String → Except FallbackError (List UElement))
    (file_path : String)
    (hmissing : path_exists file_path = false) :
    extract_from_document path_exists analyze partition_pdf file_path
      = (.error (.fileNotFound file_path), []) := by
  simp [extract_from_document, hmissing]

theorem C3_witness :
    ((fun _ : String => false) "w3.pdf" = false)
    ∧ (extract_from_document (fun _ => false)
        (fun _ => (Except.error ⟨"never"⟩ : Except PrimaryError DDDoc))
        (fun _ => (Except.ok [] : Except FallbackError (List UElement)))
        "w3.pdf"
        = (.error (.fileNotFound "w3.pdf"), [])) :=
  ⟨rfl,
    C3_missing_file_short_circuits (fun _ => false)
      (fun _ => Except.error ⟨"never"⟩) (fun _ => Except.ok []) "w3.pdf" rfl⟩

/-- C4 (amended): the flat-sequence normalizer assigns kinds by the source's
`isinstance` chain over the `unstructured` class hierarchy: a title element
maps to `"title"`, a table element to `"table"` with its textual
representation attached under `table_data` (the `text` key already holds
it), and every other textual element — narrative text, list items, headers
and footers alike — maps to `"text"`, because those classes all derive from
the generic `Text` class; only an element outside the textual hierarchy
maps to `"unknown"`.  The kinds `"list_item"`, `"header"` and `"footer"`
are never produced. -/
theorem C4_amended_kind_mapping (e : UElement) :
    ((classify_element e).type
      = (match e.category with
         | .title => "title"
         | .table => "table"
         | .narrativeText => "text"
         | .listItem => "text"
         | .header => "text"
         | .footer => "text"
         | .checkBox => "unknown"))
    ∧ ((classify_element e).table_data
        = (if e.category = UCategory.table then some e.text else none))
    ∧ ((classify_element e).text = some e.text) := by
  obtain ⟨c, t, m⟩ := e
  cases c <;> simp [classify_element, is_title, is_table, is_text]

theorem C4_counterexample_list_item :
    ((classify_element ⟨.listItem, "item one", ⟨some 1, none⟩⟩).type = "text")
    ∧ ("text" ≠ "list_item")
    ∧ ((classify_element ⟨.header, "hdr", ⟨some 1, none⟩⟩).type ≠ "header")
    ∧ ((classify_element ⟨.footer, "ftr", ⟨some 1, none⟩⟩).type ≠ "footer")
    ∧ (((fallback_unstructured_extraction "x.pdf"
          [⟨.listItem, "item one", ⟨some 1, none⟩⟩]).elements.map
            (fun p => p.data.map Item.type)) = [["text"]]) := by
  decide

/-- C5: for every flat element sequence with page-number metadata present
on each element, the output page-number sequence is the input page-number
sequence with adjacent duplicates removed (`destutter` under `≠`): exactly
one page entry per maximal contiguous run.  A page number recurring in two
non-contiguous runs therefore yields two separate entries with the same
number, so duplicate page numbers can appear in the output. -/
theorem C5_noncontiguous_runs_not_merged (file_path : String)
    (elements : List UElement) (nums : List Int)
    (hpresent : elements.map (fun e => e.metadata.page_number) = nums.map some) :
    (fallback_unstructured_extraction file_path elements).elements.map
        PageEntry.page_number
      = nums.destutter (fun a b => a ≠ b) :=
  fallback_pageNumbers file_path elements nums hpresent

theorem C5_witness :
    (([⟨UCategory.narrativeText, "a", ⟨some 1, none⟩⟩,
       ⟨UCategory.narrativeText, "b", ⟨some 2, none⟩⟩,
       ⟨UCategory.narrativeText, "c", ⟨some 1, none⟩⟩] : List UElement).map
        (fun e => e.metadata.page_number) = ([1, 2, 1] : List Int).map some)
    ∧ ((fallback_unstructured_extraction "w5.pdf"
          [⟨UCategory.narrativeText, "a", ⟨some 1, none⟩⟩,
           ⟨UCategory.narrativeText, "b", ⟨some 2, none⟩⟩,
           ⟨UCategory.narrativeText, "c", ⟨some 1, none⟩⟩]).elements.map
            PageEntry.page_number
        = ([1, 2, 1] : List Int).destutter (fun a b => a ≠ b))
    ∧ (([1, 2, 1] : List Int).destutter (fun a b => a ≠ b) = [1, 2, 1]) :=
  ⟨rfl,
    C5_noncontiguous_runs_not_merged "w5.pdf"
      [⟨UCategory.narrativeText, "a", ⟨some 1, none⟩⟩,
       ⟨UCategory.narrativeText, "b", ⟨some 2, none⟩⟩,
       ⟨UCategory.narrativeText, "c", ⟨some 1, none⟩⟩] [1, 2, 1] rfl,
    by decide⟩

/-- C6 (amended): every content item emitted by the flat-sequence
normalizer belongs to exactly one page and the pages' items concatenate to
the classified elements in emission order — for every input sequence,
including ones with absent or non-monotone page numbers (the binders
`file_path`/`elements` are unconstrained); the no-duplicate-`page_number`
invariant does not hold in general (see the counterexample) but does hold
when the flat sequence's page numbers are present and monotonically
non-decreasing (the separate `mono_*` variables); and for every tree
result the tree normalizer emits exactly one page entry per engine page,
with the engine's own page numbers in engine order. -/
theorem C6_amended_invariants (file_path : String) (elements : List UElement)
    (analyzed_doc : DDDoc)
    (mono_path : String) (mono_elements : List UElement) (nums : List Int)
    (hpresent : mono_elements.map (fun e => e.metadata.page_number)
        = nums.map some)
    (hmono : nums.Chain' (fun a b => a ≤ b)) :
    (((fallback_unstructured_extraction file_path elements).elements.map
        PageEntry.data).flatten = elements.map classify_element)
    ∧ (((fallback_unstructured_extraction mono_path mono_elements).elements.map
        PageEntry.page_number).Nodup)
    ∧ ((format_output analyzed_doc).elements.map PageEntry.page_number
        = analyzed_doc.pages.map DDPage.page_number) := by
  refine ⟨fallback_flatten file_path elements, ?_, ?_⟩
  · rw [fallback_pageNumbers mono_path mono_elements nums hpresent]
    exact destutter_nodup_of_mono nums hmono
  · simp [format_output]

theorem C6_counterexample_duplicate_page_numbers :
    ¬ (((fallback_unstructured_extraction "doc.pdf"
          [⟨.narrativeText, "a", ⟨some 1, none⟩⟩,
           ⟨.narrativeText, "b", ⟨some 2, none⟩⟩,
           ⟨.narrativeText, "c", ⟨some 1, none⟩⟩]).elements.map
            PageEntry.page_number).Nodup) := by
  decide

theorem C6_witness :
    (([⟨UCategory.title, "t", ⟨some 3, none⟩⟩] : List UElement).map
        (fun e => e.metadata.page_number) = ([3] : List Int).map some)
    ∧ (([3] : List Int).Chain' (fun a b => a ≤ b))
    ∧ ((((fallback_unstructured_extraction "w6.pdf"
            [⟨UCategory.narrativeText, "a", ⟨none, none⟩⟩,
             ⟨UCategory.title, "b", ⟨some 2, none⟩⟩,
             ⟨UCategory.narrativeText, "c", ⟨some 1, none⟩⟩]).elements.map
            PageEntry.data).flatten
          = ([⟨UCategory.narrativeText, "a", ⟨none, none⟩⟩,
              ⟨UCategory.title, "b", ⟨some 2, none⟩⟩,
              ⟨UCategory.narrativeText, "c", ⟨some 1, none⟩⟩] : List UElement).map
              classify_element)
       ∧ (((fallback_unstructured_extraction "w6m.pdf"
            [⟨UCategory.title, "t", ⟨some 3, none⟩⟩]).elements.map
              PageEntry.page_number).Nodup)
       ∧ ((format_output ⟨"w6src.pdf", [⟨9, [], [], []⟩]⟩).elements.map
              PageEntry.page_number
            = (⟨"w6src.pdf", [⟨9, [], [], []⟩]⟩ : DDDoc).pages.map
                DDPage.page_number)) :=
  ⟨rfl, by simp,
    C6_amended_invariants "w6.pdf"
      [⟨UCategory.narrativeText, "a", ⟨none, none⟩⟩,
       ⟨UCategory.title, "b", ⟨some 2, none⟩⟩,
       ⟨UCategory.narrativeText, "c", ⟨some 1, none⟩⟩]
      ⟨"w6src.pdf", [⟨9, [], [], []⟩]⟩
      "w6m.pdf" [⟨UCategory.title, "t", ⟨some 3, none⟩⟩] [3] rfl (by simp)⟩

/-- C7: an element whose page-number metadata is absent never triggers a
page transition: the loop step leaves the cursor and the flushed pages
unchanged and appends the item to the open bucket; a sequence consisting
entirely of such elements is accumulated under the sentinel page number
`-1`, which the final flush emits like any other page; and when a
page-numbered element later arrives, the transition likewise emits the
sentinel-keyed page before opening the new one. -/
theorem C7_none_page_metadata (file_path : String) (s : FbState) (e : UElement)
    (elements : List UElement) (e1 e2 : UElement) (n : Int)
    (he : e.metadata.page_number = none)
    (hall : ∀ x ∈ elements, x.metadata.page_number = none)
    (hnonempty : elements ≠ [])
    (he1 : e1.metadata.page_number = none)
    (he2 : e2.metadata.page_number = some n)
    (hn : n ≠ -1) :
    (fb_step s e = { s with page_data := s.page_data ++ [classify_element e] })
    ∧ (fallback_unstructured_extraction file_path elements
        = { file_path := file_path
            elements := [⟨-1, elements.map classify_element⟩] })
    ∧ (fallback_unstructured_extraction file_path [e1, e2]
        = { file_path := file_path
            elements := [⟨-1, [classify_element e1]⟩,
                         ⟨n, [classify_element e2]⟩] }) := by
  refine ⟨?_, ?_, ?_⟩
  · simp [fb_step, he]
  · have helems : (fallback_unstructured_extraction file_path elements).elements
        = [⟨-1, elements.map classify_element⟩] := by
      rw [fallback_elements_eq, groupPages_all_none elements (-1) [] hall]
      rw [List.nil_append, if_neg (by simp [hnonempty])]
    rw [← helems]
    rfl
  · have helems : (fallback_unstructured_extraction file_path [e1, e2]).elements
        = [⟨-1, [classify_element e1]⟩, ⟨n, [classify_element e2]⟩] := by
      rw [fallback_elements_eq]
      simp only [groupPages, he1, he2]
      rw [if_pos hn]
      simp [groupPages]
    rw [← helems]
    rfl

theorem C7_witness :
    ((⟨UCategory.narrativeText, "x", ⟨none, none⟩⟩ : UElement).metadata.page_number
        = none)
    ∧ (∀ x ∈ ([⟨UCategory.title, "t", ⟨none, none⟩⟩] : List UElement),
        x.metadata.page_number = none)
    ∧ (([⟨UCategory.title, "t", ⟨none, none⟩⟩] : List UElement) ≠ [])
    ∧ ((⟨UCategory.narrativeText, "u", ⟨none, none⟩⟩ : UElement).metadata.page_number
        = none)
    ∧ ((⟨UCategory.narrativeText, "v", ⟨some 4, none⟩⟩ : UElement).metadata.page_number
        = some 4)
    ∧ ((4 : Int) ≠ -1)
    ∧ ((fb_step ⟨5, [], []⟩ ⟨UCategory.narrativeText, "x", ⟨none, none⟩⟩
        = { current_page_number := 5
            page_data :=
              [] ++ [classify_element ⟨UCategory.narrativeText, "x", ⟨none, none⟩⟩]
            pages := [] })
       ∧ (fallback_unstructured_extraction "w7.pdf"
            [⟨UCategory.title, "t", ⟨none, none⟩⟩]
          = { file_path := "w7.pdf"
              elements :=
                [⟨-1, ([⟨UCategory.title, "t", ⟨none, none⟩⟩] : List UElement).map
                    classify_element⟩] })
       ∧ (fallback_unstructured_extraction "w7.pdf"
            [⟨UCategory.narrativeText, "u", ⟨none, none⟩⟩,
             ⟨UCategory.narrativeText, "v", ⟨some 4, none⟩⟩]
          = { file_path := "w7.pdf"
              elements :=
                [⟨-1, [classify_element ⟨UCategory.narrativeText, "u", ⟨none, none⟩⟩]⟩,
                 ⟨4, [classify_element ⟨UCategory.narrativeText, "v", ⟨some 4, none⟩⟩]⟩] })) :=
  ⟨rfl, by decide, by decide, rfl, rfl, by decide,
    C7_none_page_metadata "w7.pdf" ⟨5, [], []⟩
      ⟨UCategory.narrativeText, "x", ⟨none, none⟩⟩
      [⟨UCategory.title, "t", ⟨none, none⟩⟩]
      ⟨UCategory.narrativeText, "u", ⟨none, none⟩⟩
      ⟨UCategory.narrativeText, "v", ⟨some 4, none⟩⟩ 4
      rfl (by decide) (by decide) rfl rfl (by decide)⟩

/-- C8 (amended): the tree normalizer emits, for each page in engine order,
one item per text block with kind `"text"`, one per table with kind
`"table"` whose serialized tabular (CSV) form is attached under
`table_data` while no `text` field is set on table items, and one per
layout element whose kind is the element's own reported category name used
verbatim; the page number is taken directly from the page object. -/
theorem C8_amended_tree_normalizer (analyzed_doc : DDDoc) :
    (format_output analyzed_doc).elements
      = analyzed_doc.pages.map (fun page =>
          { page_number := page.page_number
            data :=
              page.text.map (fun tb =>
                { type := "text", text := some tb.text, table_data := none
                  bounding_box := tb.bounding_box })
              ++ page.tables.map (fun t =>
                { type := "table", text := none, table_data := some t.csv
                  bounding_box := t.bounding_box })
              ++ page.layouts.map (fun l =>
                { type := l.category_name, text := some l.text, table_data := none
                  bounding_box := l.bounding_box }) }) := rfl

theorem C8_counterexample_table_text_field :
    (((format_output ⟨"t.pdf", [⟨1, [], [⟨"a,b", none⟩], []⟩]⟩).elements.map
        (fun pe => pe.data.map Item.text)) = [[none]])
    ∧ ((none : Option String) ≠ some "a,b")
    ∧ (((format_output ⟨"t.pdf", [⟨1, [], [⟨"a,b", none⟩], []⟩]⟩).elements.map
        (fun pe => pe.data.map Item.table_data)) = [[some "a,b"]]) := by
  decide

/-- C9: on the worked example of the specification — a page-1 title
`"Intro"`, a page-1 narrative text `"Hello"`, a page-2 table `"a,b\n1,2"` —
the flat-sequence normalizer produces exactly two pages: page 1 with the
title item then the text item, page 2 with the single table item. -/
theorem C9_worked_example :
    fallback_unstructured_extraction "sample.pdf"
      [⟨.title, "Intro", ⟨some 1, none⟩⟩,
       ⟨.narrativeText, "Hello", ⟨some 1, none⟩⟩,
       ⟨.table, "a,b\n1,2", ⟨some 2, none⟩⟩]
    = { file_path := "sample.pdf"
        elements :=
          [⟨1, [⟨"title", some "Intro", none, none⟩,
                ⟨"text", some "Hello", none, none⟩]⟩,
           ⟨2, [⟨"table", some "a,b\n1,2", some "a,b\n1,2", none⟩]⟩] } := rfl

/-- C10: for every tree result (the binder `analyzed_doc` is
unconstrained), the dictionary produced by the tree normalizer has
`page_count` equal to the length of its `elements` list — one entry is
appended per engine page unconditionally — so a page with no text blocks,
tables or layout elements (the separate `doc_with_empty_page`/`page`
variables) still appears as an entry with an empty `data` list, whereas
the flat-sequence path never emits an empty page. -/
theorem C10_page_count_matches (analyzed_doc : DDDoc)
    (doc_with_empty_page : DDDoc) (page : DDPage)
    (file_path : String) (elements : List UElement) (p : PageEntry)
    (hpage : page ∈ doc_with_empty_page.pages)
    (htext : page.text = []) (htables : page.tables = [])
    (hlayouts : page.layouts = [])
    (hp : p ∈ (fallback_unstructured_extraction file_path elements).elements) :
    ((format_output analyzed_doc).page_count
        = (format_output analyzed_doc).elements.length)
    ∧ ((⟨page.page_number, []⟩ : PageEntry)
        ∈ (format_output doc_with_empty_page).elements)
    ∧ (p.data ≠ []) := by
  refine ⟨?_, ?_, fallback_no_empty_pages file_path elements p hp⟩
  · simp [format_output]
  · simp only [format_output]
    refine List.mem_map.mpr ⟨page, hpage, ?_⟩
    simp [format_page_elements, htext, htables, hlayouts]

theorem C10_witness :
    ((⟨7, [], [], []⟩ : DDPage) ∈ (⟨"d.pdf", [⟨7, [], [], []⟩]⟩ : DDDoc).pages)
    ∧ ((⟨7, [], [], []⟩ : DDPage).text = [])
    ∧ ((⟨7, [], [], []⟩ : DDPage).tables = [])
    ∧ ((⟨7, [], [], []⟩ : DDPage).layouts = [])
    ∧ ((⟨1, [⟨"title", some "t", none, none⟩]⟩ : PageEntry)
        ∈ (fallback_unstructured_extraction "w10.pdf"
            [⟨UCategory.title, "t", ⟨some 1, none⟩⟩]).elements)
    ∧ (((format_output ⟨"w10a.pdf",
            [⟨1, [⟨"hello", none⟩], [], []⟩,
             ⟨2, [], [⟨"a,b", none⟩], []⟩]⟩).page_count
          = (format_output ⟨"w10a.pdf",
              [⟨1, [⟨"hello", none⟩], [], []⟩,
               ⟨2, [], [⟨"a,b", none⟩], []⟩]⟩).elements.length)
       ∧ ((⟨7, []⟩ : PageEntry)
            ∈ (format_output ⟨"d.pdf", [⟨7, [], [], []⟩]⟩).elements)
       ∧ ((⟨1, [⟨"title", some "t", none, none⟩]⟩ : PageEntry).data ≠ [])) :=
  ⟨by decide, rfl, rfl, rfl, by decide,
    C10_page_count_matches
      ⟨"w10a.pdf",
        [⟨1, [⟨"hello", none⟩], [], []⟩, ⟨2, [], [⟨"a,b", none⟩], []⟩]⟩
      ⟨"d.pdf", [⟨7, [], [], []⟩]⟩ ⟨7, [], [], []⟩
      "w10.pdf" [⟨UCategory.title, "t", ⟨some 1, none⟩⟩]
      ⟨1, [⟨"title", some "t", none, none⟩]⟩
      (by decide) rfl rfl rfl (by decide)⟩

end DocumentExtraction
